import Mathlib

/-!
Verification of the ruvector Kuiper-belt analysis scripts.

Shallow embedding of the three Python scripts under
`examples/kuiper_belt/`:

* `etno_analysis_planet_nine.py` — namespace `Etno`.  The parts verified
  here only compare, filter and average the floating-point fields, so
  those fields are modelled as rationals (every IEEE double is a
  rational) and the definitions stay fully executable.
* `kozai_lidov_analysis.py` — namespace `Kozai`.  The per-record
  formulas use `math.sqrt` and `math.cos`, so the fields are modelled as
  real numbers; `math.sqrt` raising `ValueError` on a negative argument
  is modelled by an `Option` result.
* `etno_comprehensive_analysis.py` — namespace `Comprehensive` (only the
  extreme-core filter, used as corroborating context).
-/

namespace Etno

/-- The `KBO` dataclass of `etno_analysis_planet_nine.py` (lines 26-45). -/
structure KBO where
  name : String
  a : ℚ
  e : ℚ
  i : ℚ
  q : ℚ
  ad : ℚ
  period : ℚ
  omega_node : ℚ
  omega_arg : ℚ
  abs_mag : ℚ
  pert_strength : ℚ
  apsidal_prec : ℚ
  nodal_prec : ℚ
  resonance_strength : ℚ
  pert_type : String
  distant_flag : ℤ
  classification : String
deriving DecidableEq

/-- `filter_extreme_objects` (lines 90-93): ETNOs with a > 250 AU AND q > 30 AU. -/
def filter_extreme_objects (objects : List KBO) : List KBO :=
  objects.filter (fun o => decide (250 < o.a ∧ 30 < o.q))

/-- `high_a_objects` (line 97): objects with a > 250 AU. -/
def high_a_objects (objects : List KBO) : List KBO :=
  objects.filter (fun o => decide (250 < o.a))

/-- `high_q_objects` (line 98): objects with q > 30 AU. -/
def high_q_objects (objects : List KBO) : List KBO :=
  objects.filter (fun o => decide (30 < o.q))

/-- Entry `'high_eccentricity_count'` of `analyze_orbital_anomalies`
(lines 152, 163): number of records with e > 0.8. -/
def high_eccentricity_count (objects : List KBO) : ℕ :=
  (objects.filter (fun o => decide (0.8 < o.e))).length

/-- Entry `'high_inclination_count'` of `analyze_orbital_anomalies`
(lines 155, 164): number of records with i > 40°. -/
def high_inclination_count (objects : List KBO) : ℕ :=
  (objects.filter (fun o => decide (40 < o.i))).length

/-- Entry `'perihelion_aligned_count'` of `analyze_orbital_anomalies`
(lines 158, 165): the code counts records with `omega_arg < 45 or
omega_arg > 315` and nothing else. -/
def perihelion_aligned_count (objects : List KBO) : ℕ :=
  (objects.filter (fun o => decide (o.omega_arg < 45 ∨ 315 < o.omega_arg))).length

/-- Modelled from the spec: the full perihelion-alignment disjunction
`ω < 45° or ω > 315° or 135° < ω < 225°` that §4 of the spec (and the
report label at line 289, `ω ≈ 0° or 180°`) describe for the
perihelion-alignment count. -/
def perihelion_aligned_spec_count (objects : List KBO) : ℕ :=
  (objects.filter
    (fun o => decide (o.omega_arg < 45 ∨ 315 < o.omega_arg ∨
      (135 < o.omega_arg ∧ o.omega_arg < 225)))).length

/-- Entry `'kozai_cluster_0'` of `analyze_planet_nine_signature`
(line 190): records with ω < 45 or ω > 315. -/
def kozai_cluster_0 (objects : List KBO) : ℕ :=
  (objects.filter (fun o => decide (o.omega_arg < 45 ∨ 315 < o.omega_arg))).length

/-- Entry `'kozai_cluster_180'` of `analyze_planet_nine_signature`
(line 191): records with 135 < ω < 225. -/
def kozai_cluster_180 (objects : List KBO) : ℕ :=
  (objects.filter (fun o => decide (135 < o.omega_arg ∧ o.omega_arg < 225))).length

/-- Entry `'distant_object_flag_count'` of `analyze_orbital_anomalies`
(line 167): sum of the integer `distant_flag` fields. -/
def distant_object_flag_count (objects : List KBO) : ℤ :=
  (objects.map (·.distant_flag)).sum

/-- Python `min` of a non-empty list (0 for the empty list, which the
source never reaches thanks to its emptiness guard). -/
def list_min : List ℚ → ℚ
  | [] => 0
  | x :: xs => xs.foldl min x

/-- Python `max` of a non-empty list (0 for the empty list). -/
def list_max : List ℚ → ℚ
  | [] => 0
  | x :: xs => xs.foldl max x

/-- Python `sum(xs) / len(xs)`. -/
def list_mean (xs : List ℚ) : ℚ :=
  xs.sum / (xs.length : ℚ)

/-- Python `sorted(xs)[len(xs)//2]` (line 117); out-of-range defaults to
0, unreachable behind the source's non-emptiness guard. -/
def list_median (xs : List ℚ) : ℚ :=
  (xs.insertionSort (· ≤ ·)).getD (xs.length / 2) 0

/-- Result dictionary of `calculate_statistics` (lines 112-130). -/
structure EtnoStatistics where
  count : ℕ
  a_mean : ℚ
  a_min : ℚ
  a_max : ℚ
  a_median : ℚ
  q_mean : ℚ
  q_min : ℚ
  q_max : ℚ
  ad_mean : ℚ
  ad_max : ℚ
  e_mean : ℚ
  e_min : ℚ
  e_max : ℚ
  i_mean : ℚ
  i_max : ℚ
  period_mean : ℚ
  period_max : ℚ
deriving DecidableEq

/-- `calculate_statistics` (lines 100-130).  The Python function returns
the empty dict `{}` for an empty input (line 102-103), modelled as
`none`; otherwise it builds the statistics dictionary. -/
def calculate_statistics (objects : List KBO) : Option EtnoStatistics :=
  match objects with
  | [] => none
  | _ :: _ =>
    let a_values := objects.map (·.a)
    let q_values := objects.map (·.q)
    let ad_values := objects.map (·.ad)
    let e_values := objects.map (·.e)
    let i_values := objects.map (·.i)
    let period_values := objects.map (·.period)
    some
      { count := objects.length
        a_mean := list_mean a_values
        a_min := list_min a_values
        a_max := list_max a_values
        a_median := list_median a_values
        q_mean := list_mean q_values
        q_min := list_min q_values
        q_max := list_max q_values
        ad_mean := list_mean ad_values
        ad_max := list_max ad_values
        e_mean := list_mean e_values
        e_min := list_min e_values
        e_max := list_max e_values
        i_mean := list_mean i_values
        i_max := list_max i_values
        period_mean := list_mean period_values
        period_max := list_max period_values }

end Etno

namespace Comprehensive

/-- The extreme-core filter of `etno_comprehensive_analysis.py`
(line 63): same conjunction a > 250 AU AND q > 30 AU over the loaded
record dictionaries, reusing the `Etno.KBO` field set. -/
def extreme_core (objects : List Etno.KBO) : List Etno.KBO :=
  objects.filter (fun o => decide (250 < o.a ∧ 30 < o.q))

end Comprehensive

namespace Kozai

/-- Record dictionary built by `load_data` of `kozai_lidov_analysis.py`
(lines 97-106). -/
structure Obj where
  name : String
  a : ℝ
  e : ℝ
  i : ℝ
  q : ℝ
  ad : ℝ
  omega : ℝ
  w : ℝ

/-- The `KozaiCandidate` dataclass (lines 22-41). -/
structure KozaiCandidate where
  name : String
  a : ℝ
  e : ℝ
  i : ℝ
  q : ℝ
  ad : ℝ
  omega : ℝ
  w : ℝ
  kozai_parameter : ℝ := 0
  h_z_component : ℝ := 0
  apsidal_precession : ℝ := 0
  nodal_precession : ℝ := 0
  omega_circulation_indicator : ℝ := 0
  estimated_kozai_period : ℝ := 0
  resonance_strength : ℝ := 0
  kozai_evidence_score : ℝ := 0

/-- The `KozaiStatistics` dataclass with its field defaults
(lines 44-63); `{}` is the freshly constructed dataclass. -/
structure KozaiStatistics where
  count : ℕ := 0
  avg_a : ℝ := 0
  avg_e : ℝ := 0
  avg_i : ℝ := 0
  avg_kozai_param : ℝ := 0
  strong_kozai_count : ℕ := 0
  moderate_kozai_count : ℕ := 0
  e_min : ℝ := 0
  e_max : ℝ := 0
  e_mean : ℝ := 0
  e_std_dev : ℝ := 0
  i_min : ℝ := 0
  i_max : ℝ := 0
  i_mean : ℝ := 0
  i_std_dev : ℝ := 0

/-- The `PerturberParameters` dataclass with its field defaults
(lines 66-76). -/
structure PerturberParameters where
  distance_min : ℝ := 0
  distance_max : ℝ := 0
  mass_min : ℝ := 0
  mass_max : ℝ := 0
  inclination_estimate : ℝ := 0
  eccentricity_estimate : ℝ := 0.3
  overall_confidence : ℝ := 0
  candidates : List String := []

noncomputable section

/-- Python `math.radians`. -/
def radians (x : ℝ) : ℝ :=
  x * Real.pi / 180

/-- `calculate_kozai_parameter` (lines 113-117).  `math.sqrt` raises
`ValueError` on a negative argument, modelled by `none`. -/
def calculate_kozai_parameter (o : Obj) : Option ℝ :=
  if 1 - o.e ^ 2 < 0 then none
  else some |Real.sqrt (1 - o.e ^ 2) * Real.cos (radians o.i)|

/-- `calculate_angular_momentum_z` (lines 119-122), the signed variant. -/
def calculate_angular_momentum_z (o : Obj) : Option ℝ :=
  if 1 - o.e ^ 2 < 0 then none
  else some (Real.sqrt (1 - o.e ^ 2) * Real.cos (radians o.i))

/-- `estimate_kozai_period` (lines 124-134): `sqrt(a³) * 1000 *
(1 / max(kozai_parameter, 0.1))`; either `math.sqrt` call can raise. -/
def estimate_kozai_period (o : Obj) : Option ℝ :=
  if o.a ^ 3 < 0 then none
  else
    (calculate_kozai_parameter o).map
      (fun kozai_param => Real.sqrt (o.a ^ 3) * 1000 * (1 / max kozai_param 0.1))

/-- `classify_omega_circulation` (lines 136-142). -/
def classify_omega_circulation (o : Obj) : ℝ :=
  let i_factor := |(|Real.cos (radians o.i)|) - 0.5|
  let e_factor := max (o.e - 0.65) 0
  max 0 (min 1 (1 - (i_factor + e_factor)))

/-- `calculate_resonance_strength` (lines 144-151): note the final
`min(1.0, …)` upper clamp and the absence of any lower clamp. -/
def calculate_resonance_strength (o : Obj) : ℝ :=
  let e_factor := (o.e - 0.5) / 0.5
  let i_factor := max 0 (1 - 2 * |(|Real.cos (radians o.i)|) - 0.5|)
  let a_factor := min (o.ad / 500) 1
  min 1 ((e_factor + i_factor + a_factor) / 3)

/-- Modelled from the spec: the plain, unclamped "average of the three
factors" that §4 of the spec gives as the result of
`resonanceStrength(r)` (the source applies `min(1.0, …)` on top of it). -/
def resonance_average (o : Obj) : ℝ :=
  ((o.e - 0.5) / 0.5 + max 0 (1 - 2 * |(|Real.cos (radians o.i)|) - 0.5|) +
    min (o.ad / 500) 1) / 3

/-- `calculate_kozai_evidence` (lines 153-160). -/
def calculate_kozai_evidence (kozai_param omega_circulation resonance : ℝ) : ℝ :=
  kozai_param * 0.4 + (1 - omega_circulation) * 0.3 + resonance * 0.3

/-- The candidate filter of `analyze` (lines 168-171):
e > 0.5 AND i > 30° AND a > 50 AU. -/
def filter_candidates (objects : List Obj) : List Obj :=
  objects.filter (fun o => decide (0.5 < o.e ∧ 30 < o.i ∧ 50 < o.a))

/-- Body of the per-candidate loop of `analyze` (lines 176-203): all
derived metrics for one record; `none` when a `math.sqrt` call raises.
`apsidal_precession` and `nodal_precession` keep their dataclass
defaults, as in the source. -/
def compute_candidate (o : Obj) : Option KozaiCandidate :=
  match calculate_kozai_parameter o, calculate_angular_momentum_z o,
      estimate_kozai_period o with
  | some kozai_param, some h_z, some kozai_period =>
    let omega_circulation := classify_omega_circulation o
    let resonance := calculate_resonance_strength o
    some
      { name := o.name, a := o.a, e := o.e, i := o.i, q := o.q, ad := o.ad
        omega := o.omega, w := o.w
        kozai_parameter := kozai_param
        h_z_component := h_z
        omega_circulation_indicator := omega_circulation
        estimated_kozai_period := kozai_period
        resonance_strength := resonance
        kozai_evidence_score :=
          calculate_kozai_evidence kozai_param omega_circulation resonance }
  | _, _, _ => none

/-- The per-candidate loop of `analyze` (lines 176-203): in Python an
uncaught `ValueError` from any record propagates out of the loop, so a
single failing record yields no result at all, modelled by `none` for
the whole list. -/
def compute_all : List Obj → Option (List KozaiCandidate)
  | [] => some []
  | o :: rest =>
    match compute_candidate o, compute_all rest with
    | some c, some cs => some (c :: cs)
    | _, _ => none

/-- Python `min` over a non-empty real list (0 for the empty list, which
the source never reaches thanks to its emptiness guard). -/
def list_min : List ℝ → ℝ
  | [] => 0
  | x :: xs => xs.foldl min x

/-- Python `max` over a non-empty real list (0 for the empty list). -/
def list_max : List ℝ → ℝ
  | [] => 0
  | x :: xs => xs.foldl max x

/-- Population standard deviation (lines 237-238, 245-246):
`sqrt(sum((v - mean)²) / len)`. -/
def std_dev (xs : List ℝ) : ℝ :=
  let mean := xs.sum / (xs.length : ℝ)
  Real.sqrt ((xs.map (fun v => (v - mean) ^ 2)).sum / (xs.length : ℝ))

/-- `_calculate_statistics` (lines 214-246).  On an empty candidate list
the source returns early, leaving the freshly constructed
`KozaiStatistics` dataclass (all fields at their zero defaults).  The
source sorts `e_values` and `i_values` before taking min/max/mean/std-dev
(lines 233, 241); sorting permutes the list and changes none of those
aggregates, so the embedded aggregates read the unsorted projections. -/
def calculate_statistics (candidates : List KozaiCandidate) : KozaiStatistics :=
  if candidates.isEmpty then {}
  else
    let count := candidates.length
    let e_values := candidates.map (·.e)
    let i_values := candidates.map (·.i)
    { count := count
      avg_a := (candidates.map (·.a)).sum / (count : ℝ)
      avg_e := (candidates.map (·.e)).sum / (count : ℝ)
      avg_i := (candidates.map (·.i)).sum / (count : ℝ)
      avg_kozai_param := (candidates.map (·.kozai_parameter)).sum / (count : ℝ)
      strong_kozai_count :=
        candidates.countP (fun c => decide (0.7 < c.kozai_evidence_score))
      moderate_kozai_count :=
        candidates.countP (fun c => decide (0.5 < c.kozai_evidence_score))
      e_min := list_min e_values
      e_max := list_max e_values
      e_mean := e_values.sum / (e_values.length : ℝ)
      e_std_dev := std_dev e_values
      i_min := list_min i_values
      i_max := list_max i_values
      i_mean := i_values.sum / (i_values.length : ℝ)
      i_std_dev := std_dev i_values }

/-- `_estimate_perturber_parameters` (lines 248-297) as a pure function
of the statistics (the source reads `self.statistics` and mutates a
fresh `PerturberParameters`; the candidate strings are appended in
source order). -/
def estimate_perturber_parameters (stats : KozaiStatistics) : PerturberParameters :=
  let distance_min := stats.avg_a * 4.5
  let distance_max := stats.avg_a * 5.5
  let mass : ℝ × ℝ :=
    if 0.6 < stats.avg_kozai_param then (6, 10)
    else if 0.4 < stats.avg_kozai_param then (4, 7)
    else (1.5, 4)
  let inclination_estimate : ℝ :=
    if 60 < stats.avg_i then 15 else if 40 < stats.avg_i then 10 else 5
  let overall_confidence : ℝ :=
    if 3 < stats.strong_kozai_count then 0.85
    else if 1 < stats.strong_kozai_count then 0.70
    else if 2 < stats.moderate_kozai_count then 0.60
    else 0.40
  let candidates :=
    (if 200 < distance_max ∧ 5 < mass.2 then ["Planet Nine (hypothetical)"] else []) ++
      (if 500 < distance_max then ["Distant stellar companion"] else []) ++
        (if distance_max < 100 then ["Neptune (for comparison)"] else [])
  { distance_min := distance_min
    distance_max := distance_max
    mass_min := mass.1
    mass_max := mass.2
    inclination_estimate := inclination_estimate
    eccentricity_estimate := 0.3
    overall_confidence := overall_confidence
    candidates := candidates }

/-- Sort of line 206: stable sort by descending `kozai_evidence_score`. -/
def sort_by_evidence_desc (cs : List KozaiCandidate) : List KozaiCandidate :=
  cs.insertionSort (fun x y => y.kozai_evidence_score ≤ x.kozai_evidence_score)

/-- Everything `analyze` leaves on the analyzer after a successful run. -/
structure AnalysisResult where
  kozai_candidates : List KozaiCandidate
  statistics : KozaiStatistics
  perturber_params : PerturberParameters

/-- `analyze` (lines 162-212): filter, per-record metrics, sort by
evidence score, statistics, perturber estimate.  A `ValueError` raised
inside the per-record loop propagates and aborts the whole run (`none`). -/
def analyze (objects : List Obj) : Option AnalysisResult :=
  match compute_all (filter_candidates objects) with
  | none => none
  | some cs =>
    let sorted := sort_by_evidence_desc cs
    some
      { kozai_candidates := sorted
        statistics := calculate_statistics sorted
        perturber_params := estimate_perturber_parameters (calculate_statistics sorted) }

end

end Kozai

/-! Concrete sample records used by witnesses and counterexamples. -/

/-- An extreme TNO (a > 250, q > 30) whose argument of perihelion is
exactly 180°, i.e. in the ω ≈ 180° Kozai cluster. -/
def sampleKBO180 : Etno.KBO :=
  { name := "omega180", a := 300, e := 0.9, i := 20, q := 40, ad := 560
    period := 5196, omega_node := 10, omega_arg := 180, abs_mag := 4
    pert_strength := 1, apsidal_prec := 0, nodal_prec := 0
    resonance_strength := 0, pert_type := "P9", distant_flag := 1
    classification := "ETNO" }

/-- An extreme TNO used as the C9 witness input. -/
def sampleKBOExtreme : Etno.KBO :=
  { name := "extreme", a := 400, e := 0.8, i := 25, q := 45, ad := 755
    period := 8000, omega_node := 100, omega_arg := 300, abs_mag := 5
    pert_strength := 1, apsidal_prec := 0, nodal_prec := 0
    resonance_strength := 0, pert_type := "P9", distant_flag := 1
    classification := "ETNO" }

/-- A hyperbolic-eccentricity record (e = 1.5) that passes the Kozai
candidate filter. -/
def sampleObjHyperbolic : Kozai.Obj :=
  { name := "hyperbolic", a := 100, e := 1.5, i := 40, q := 10, ad := 200
    omega := 0, w := 0 }

/-- A well-formed Kozai candidate record (e = 0.6 < 1). -/
def sampleObjBound : Kozai.Obj :=
  { name := "bound", a := 100, e := 0.6, i := 40, q := 40, ad := 160
    omega := 0, w := 0 }

/-- A parabolic record with e = 1 exactly: `1 - e² = 0`, so `math.sqrt`
does not raise. -/
def sampleObjParabolic : Kozai.Obj :=
  { name := "parabolic", a := 100, e := 1, i := 90, q := 0, ad := 200
    omega := 0, w := 0 }

/-- A record with e = 2 and i = 60° (so `cos(radians i) = 1/2`) on which
the three resonance factors average to 5/3 > 1. -/
def sampleObjFastE : Kozai.Obj :=
  { name := "e2", a := 100, e := 2, i := 60, q := 1, ad := 500
    omega := 0, w := 0 }

/-- A record whose resonance average is negative: e = 0, i = 90°, ad = 0. -/
def sampleObjNegAvg : Kozai.Obj :=
  { name := "negavg", a := 100, e := 0, i := 90, q := 1, ad := 0
    omega := 0, w := 0 }

/-- A filter-passing record with a large negative aphelion field, giving
a negative resonance strength and a negative evidence score. -/
def sampleObjNegAd : Kozai.Obj :=
  { name := "negad", a := 100, e := 0.6, i := 90, q := 1, ad := -10000
    omega := 0, w := 0 }

/-- A filter-passing record with i = 90° and a physically sensible
aphelion, used as the C6/C7 witness input. -/
def sampleObjWitness : Kozai.Obj :=
  { name := "witness", a := 100, e := 0.6, i := 90, q := 40, ad := 160
    omega := 0, w := 0 }

/-- A fully derived candidate used to instantiate statistics witnesses. -/
noncomputable def sampleCandidate : Kozai.KozaiCandidate :=
  { name := "cand", a := 100, e := 0.6, i := 50, q := 40, ad := 160
    omega := 0, w := 0, kozai_parameter := 0.65, h_z_component := 0.65
    omega_circulation_indicator := 0.5, estimated_kozai_period := 1000000
    resonance_strength := 0.4, kozai_evidence_score := 0.8 }

/-! Theorems. -/

/-- C1: the claim says the perihelion-alignment count of the population
aggregation equals the number of records with ω < 45° or ω > 315° or
135° < ω < 225°.  The code (line 158) drops the 135°–225° disjunct: on
the non-empty extreme-filtered subset `[sampleKBO180]` (one record with
ω = 180°) the code counts 0 while the full disjunction counts 1, even
though the report's own label (line 289) calls the counted set
"ω ≈ 0° or 180°". -/
theorem c1_perihelion_count_divergence :
    Etno.filter_extreme_objects [sampleKBO180] = [sampleKBO180] ∧
    Etno.perihelion_aligned_count [sampleKBO180] = 0 ∧
    Etno.perihelion_aligned_spec_count [sampleKBO180] = 1 := by
  refine ⟨?_, ?_, ?_⟩ <;> rfl

/-- C8: filtering with a selection predicate is idempotent, both for the
extreme-object filter of `etno_analysis_planet_nine.py` and for the
Kozai-candidate filter of `kozai_lidov_analysis.py`: the filter returns
an order-preserving subsequence whose members all pass the predicate, so
re-filtering returns the identical list. -/
theorem c8_filter_idempotent :
    (∀ objects : List Etno.KBO,
      Etno.filter_extreme_objects (Etno.filter_extreme_objects objects) =
        Etno.filter_extreme_objects objects) ∧
    (∀ objects : List Kozai.Obj,
      Kozai.filter_candidates (Kozai.filter_candidates objects) =
        Kozai.filter_candidates objects) := by
  constructor <;> intro objects <;>
    simp [Etno.filter_extreme_objects, Kozai.filter_candidates, List.filter_filter]

/-- C9: `isExtreme` is the conjunction of a > 250 AU and q > 30 AU, so
every record of the extreme-filtered subset belongs to both the high-a
subset and the high-q subset. -/
theorem c9_extreme_subset_of_high (objects : List Etno.KBO) (o : Etno.KBO)
    (h : o ∈ Etno.filter_extreme_objects objects) :
    o ∈ Etno.high_a_objects objects ∧ o ∈ Etno.high_q_objects objects := by
  simp only [Etno.filter_extreme_objects, Etno.high_a_objects, Etno.high_q_objects,
    List.mem_filter, decide_eq_true_eq] at h ⊢
  exact ⟨⟨h.1, h.2.1⟩, h.1, h.2.2⟩

/-- Witness for C9 at the concrete one-element list `[sampleKBOExtreme]`. -/
theorem c9_witness :
    sampleKBOExtreme ∈ Etno.filter_extreme_objects [sampleKBOExtreme] ∧
    (sampleKBOExtreme ∈ Etno.high_a_objects [sampleKBOExtreme] ∧
      sampleKBOExtreme ∈ Etno.high_q_objects [sampleKBOExtreme]) :=
  have h : sampleKBOExtreme ∈ Etno.filter_extreme_objects [sampleKBOExtreme] := by
    refine List.mem_filter.mpr ⟨List.mem_singleton_self _, by decide⟩
  ⟨h, c9_extreme_subset_of_high [sampleKBOExtreme] sampleKBOExtreme h⟩

/-- C5: on the empty input list the Kozai population statistics are the
all-zero dataclass (count 0, every mean, min, max and std-dev 0), with
no division by the population count; the ETNO `calculate_statistics`
returns its guarded empty result (`{}`, modelled as `none`) rather than
raising. -/
theorem c5_empty_population_zero :
    Kozai.calculate_statistics [] =
      ({ count := 0, avg_a := 0, avg_e := 0, avg_i := 0, avg_kozai_param := 0
         strong_kozai_count := 0, moderate_kozai_count := 0
         e_min := 0, e_max := 0, e_mean := 0, e_std_dev := 0
         i_min := 0, i_max := 0, i_mean := 0, i_std_dev := 0 } : Kozai.KozaiStatistics) ∧
    Etno.calculate_statistics [] = none := by
  exact ⟨rfl, rfl⟩

/-- C10: on every non-empty Kozai-candidate list, the strong-evidence
count (score > 0.7) never exceeds the moderate-evidence count
(score > 0.5), since every score above 0.7 is above 0.5. -/
theorem c10_strong_le_moderate (candidates : List Kozai.KozaiCandidate)
    (h : candidates ≠ []) :
    (Kozai.calculate_statistics candidates).strong_kozai_count ≤
      (Kozai.calculate_statistics candidates).moderate_kozai_count := by
  rw [Kozai.calculate_statistics, if_neg (by simpa using h)]
  refine List.countP_mono_left fun c _ hc => ?_
  simp only [decide_eq_true_eq] at hc ⊢
  linarith

/-- Witness for C10 at the concrete one-element list `[sampleCandidate]`. -/
theorem c10_witness :
    [sampleCandidate] ≠ [] ∧
    (Kozai.calculate_statistics [sampleCandidate]).strong_kozai_count ≤
      (Kozai.calculate_statistics [sampleCandidate]).moderate_kozai_count :=
  ⟨by simp, c10_strong_le_moderate [sampleCandidate] (by simp)⟩

/-- C3: for every non-empty Kozai-candidate population the perturber
estimate is the spec's deterministic tiered lookup: distance range
4.5×–5.5× the mean semi-major axis; mass range [6,10] Earth masses when
the mean Kozai parameter exceeds 0.6, [4,7] when it exceeds 0.4, else
[1.5,4]; inclination estimate 15°/10°/5° by the 60°/40° tiers on the
mean inclination; confidence 0.85/0.70/0.60/0.40 by the strong-count
>3/>1 and moderate-count >2 tiers; and "Planet Nine (hypothetical)" is a
candidate exactly when the distance maximum exceeds 200 AU and the mass
maximum exceeds 5 Earth masses. -/
theorem c3_perturber_tiers (candidates : List Kozai.KozaiCandidate)
    (_hne : candidates ≠ []) :
    let stats := Kozai.calculate_statistics candidates
    let p := Kozai.estimate_perturber_parameters stats
    p.distance_min = 4.5 * stats.avg_a ∧
    p.distance_max = 5.5 * stats.avg_a ∧
    (p.mass_min, p.mass_max) =
      (if 0.6 < stats.avg_kozai_param then ((6 : ℝ), (10 : ℝ))
       else if 0.4 < stats.avg_kozai_param then (4, 7)
       else (1.5, 4)) ∧
    p.inclination_estimate =
      (if 60 < stats.avg_i then (15 : ℝ) else if 40 < stats.avg_i then 10 else 5) ∧
    p.overall_confidence =
      (if 3 < stats.strong_kozai_count then (0.85 : ℝ)
       else if 1 < stats.strong_kozai_count then 0.70
       else if 2 < stats.moderate_kozai_count then 0.60
       else 0.40) ∧
    ("Planet Nine (hypothetical)" ∈ p.candidates ↔
      200 < p.distance_max ∧ 5 < p.mass_max) := by
  intro stats p
  refine ⟨mul_comm stats.avg_a 4.5, mul_comm stats.avg_a 5.5, rfl, rfl, rfl, ?_⟩
  show "Planet Nine (hypothetical)" ∈ Kozai.PerturberParameters.candidates _ ↔ _
  simp only [p, stats, Kozai.estimate_perturber_parameters, List.mem_append]
  split_ifs with h1 h2 h3 <;> simp_all

/-- Witness for C3 at the concrete one-element list `[sampleCandidate]`. -/
theorem c3_witness :
    [sampleCandidate] ≠ [] ∧
    (let stats := Kozai.calculate_statistics [sampleCandidate]
     let p := Kozai.estimate_perturber_parameters stats
     p.distance_min = 4.5 * stats.avg_a ∧
     p.distance_max = 5.5 * stats.avg_a ∧
     (p.mass_min, p.mass_max) =
       (if 0.6 < stats.avg_kozai_param then ((6 : ℝ), (10 : ℝ))
        else if 0.4 < stats.avg_kozai_param then (4, 7)
        else (1.5, 4)) ∧
     p.inclination_estimate =
       (if 60 < stats.avg_i then (15 : ℝ) else if 40 < stats.avg_i then 10 else 5) ∧
     p.overall_confidence =
       (if 3 < stats.strong_kozai_count then (0.85 : ℝ)
        else if 1 < stats.strong_kozai_count then 0.70
        else if 2 < stats.moderate_kozai_count then 0.60
        else 0.40) ∧
     ("Planet Nine (hypothetical)" ∈ p.candidates ↔
       200 < p.distance_max ∧ 5 < p.mass_max)) :=
  ⟨by simp, c3_perturber_tiers [sampleCandidate] (by simp)⟩

/-- Helper: whenever `1 - e² ≥ 0` the Kozai parameter computation
succeeds and its value lies in [0,1]. -/
lemma kozai_parameter_range_of_sq (o : Kozai.Obj) (hsq : 0 ≤ 1 - o.e ^ 2) :
    ∃ k, Kozai.calculate_kozai_parameter o = some k ∧ 0 ≤ k ∧ k ≤ 1 := by
  refine ⟨|Real.sqrt (1 - o.e ^ 2) * Real.cos (Kozai.radians o.i)|, ?_, abs_nonneg _, ?_⟩
  · rw [Kozai.calculate_kozai_parameter, if_neg (not_lt.mpr hsq)]
  · rw [abs_mul, abs_of_nonneg (Real.sqrt_nonneg _)]
    have h1 : Real.sqrt (1 - o.e ^ 2) ≤ 1 := Real.sqrt_le_one.mpr (by nlinarith)
    have h2 : |Real.cos (Kozai.radians o.i)| ≤ 1 := Real.abs_cos_le_one _
    exact mul_le_one₀ h1 (abs_nonneg _) h2

/-- Helper: the omega-circulation indicator is clamped to [0,1]. -/
lemma omega_circulation_nonneg (o : Kozai.Obj) :
    0 ≤ Kozai.classify_omega_circulation o := by
  simp only [Kozai.classify_omega_circulation]
  exact le_max_left 0 _

/-- Helper: the omega-circulation indicator is at most 1. -/
lemma omega_circulation_le_one (o : Kozai.Obj) :
    Kozai.classify_omega_circulation o ≤ 1 := by
  simp only [Kozai.classify_omega_circulation]
  exact max_le zero_le_one (min_le_left 1 _)

/-- Helper: the resonance strength is clamped above at 1. -/
lemma resonance_le_one (o : Kozai.Obj) :
    Kozai.calculate_resonance_strength o ≤ 1 := by
  simp only [Kozai.calculate_resonance_strength]
  exact min_le_left 1 _

/-- Helper: with e > 0.5 and a nonnegative aphelion all three resonance
factors are nonnegative, so the resonance strength is nonnegative. -/
lemma resonance_nonneg (o : Kozai.Obj) (he : 0.5 < o.e) (had : 0 ≤ o.ad) :
    0 ≤ Kozai.calculate_resonance_strength o := by
  simp only [Kozai.calculate_resonance_strength]
  have h1 : 0 ≤ (o.e - 0.5) / 0.5 := div_nonneg (by linarith) (by norm_num)
  have h2 : 0 ≤ max 0 (1 - 2 * |(|Real.cos (Kozai.radians o.i)|) - 0.5|) :=
    le_max_left 0 _
  have h3 : 0 ≤ min (o.ad / 500) 1 :=
    le_min (div_nonneg had (by norm_num)) zero_le_one
  exact le_min zero_le_one (div_nonneg (by linarith) (by norm_num))

/-- C7: for every record with e ∈ [0,1) and i ∈ [0°,180°] the Kozai
parameter computation succeeds and its value |sqrt(1−e²)·cos(i)| lies in
[0,1]. -/
theorem c7_kozai_parameter_range (o : Kozai.Obj) (he0 : 0 ≤ o.e) (he1 : o.e < 1)
    (_hi0 : 0 ≤ o.i) (_hi1 : o.i ≤ 180) :
    ∃ k, Kozai.calculate_kozai_parameter o = some k ∧ 0 ≤ k ∧ k ≤ 1 :=
  kozai_parameter_range_of_sq o (by nlinarith)

/-- Witness for C7 at the concrete record `sampleObjWitness`
(e = 0.6, i = 90°). -/
theorem c7_witness :
    (0 ≤ sampleObjWitness.e ∧ sampleObjWitness.e < 1 ∧
      0 ≤ sampleObjWitness.i ∧ sampleObjWitness.i ≤ 180) ∧
    ∃ k, Kozai.calculate_kozai_parameter sampleObjWitness = some k ∧ 0 ≤ k ∧ k ≤ 1 :=
  ⟨by refine ⟨?_, ?_, ?_, ?_⟩ <;> norm_num [sampleObjWitness],
    c7_kozai_parameter_range sampleObjWitness (by norm_num [sampleObjWitness])
      (by norm_num [sampleObjWitness]) (by norm_num [sampleObjWitness])
      (by norm_num [sampleObjWitness])⟩

/-- C4 counterexample: the claim says `resonanceStrength(r)` equals the
plain average of the three factors for every record, but the source
clamps the result above with `min(1.0, …)` (line 151): at e = 2,
i = 60°, ad = 500 the plain average is 5/3 while the code returns 1. -/
theorem c4_counterexample :
    Kozai.calculate_resonance_strength sampleObjFastE = 1 ∧
    Kozai.resonance_average sampleObjFastE = 5 / 3 := by
  have hrad : Kozai.radians 60 = Real.pi / 3 := by
    simp only [Kozai.radians]
    ring
  have hcos : Real.cos (Kozai.radians 60) = 1 / 2 := by
    rw [hrad, Real.cos_pi_div_three]
  have habs : |(|Real.cos (Kozai.radians 60)|) - 0.5| = 0 := by
    rw [hcos, abs_of_nonneg (by norm_num : (0 : ℝ) ≤ 1 / 2)]
    norm_num
  constructor
  · simp only [Kozai.calculate_resonance_strength, sampleObjFastE, habs]
    norm_num [max_def, min_def]
  · simp only [Kozai.resonance_average, sampleObjFastE, habs]
    norm_num [max_def, min_def]

/-- C4 amended: the resonance strength equals `min 1` of the plain
average of the three factors; there is no lower clamp, so whenever the
average is ≤ 0 the negative value propagates unchanged into the result. -/
theorem c4_resonance_amended (o : Kozai.Obj) :
    Kozai.calculate_resonance_strength o = min 1 (Kozai.resonance_average o) ∧
    (Kozai.resonance_average o ≤ 0 →
      Kozai.calculate_resonance_strength o = Kozai.resonance_average o) := by
  refine ⟨rfl, fun h => ?_⟩
  show min 1 (Kozai.resonance_average o) = Kozai.resonance_average o
  exact min_eq_right (h.trans zero_le_one)

/-- Witness for C4 at the concrete record `sampleObjNegAvg`
(e = 0, i = 90°, ad = 0), whose factor average is −1/3. -/
theorem c4_witness :
    Kozai.resonance_average sampleObjNegAvg ≤ 0 ∧
    Kozai.calculate_resonance_strength sampleObjNegAvg =
      Kozai.resonance_average sampleObjNegAvg := by
  have hrad : Kozai.radians 90 = Real.pi / 2 := by
    simp only [Kozai.radians]
    ring
  have hcos : Real.cos (Kozai.radians 90) = 0 := by
    rw [hrad, Real.cos_pi_div_two]
  have habs : |(|Real.cos (Kozai.radians 90)|) - 0.5| = 0.5 := by
    rw [hcos, abs_zero, zero_sub, abs_neg, abs_of_nonneg (by norm_num : (0 : ℝ) ≤ 0.5)]
  have havg : Kozai.resonance_average sampleObjNegAvg ≤ 0 := by
    simp only [Kozai.resonance_average, sampleObjNegAvg, habs]
    norm_num [max_def, min_def]
  exact ⟨havg, (c4_resonance_amended sampleObjNegAvg).2 havg⟩

/-- C6 counterexample: the claim puts the evidence score of every
filter-passing record with e < 1 in [0,1], but nothing constrains the
aphelion field: `sampleObjNegAd` (e = 0.6, i = 90°, a = 100, ad =
−10000) passes the filter, has e < 1, and its evidence score is
negative because the unclamped-below resonance strength is −33/5. -/
theorem c6_counterexample :
    (0.5 < sampleObjNegAd.e ∧ 30 < sampleObjNegAd.i ∧ 50 < sampleObjNegAd.a ∧
      sampleObjNegAd.e < 1) ∧
    Kozai.calculate_kozai_parameter sampleObjNegAd = some 0 ∧
    Kozai.calculate_kozai_evidence 0 (Kozai.classify_omega_circulation sampleObjNegAd)
      (Kozai.calculate_resonance_strength sampleObjNegAd) < 0 := by
  have hrad : Kozai.radians 90 = Real.pi / 2 := by
    simp only [Kozai.radians]
    ring
  have hcos : Real.cos (Kozai.radians 90) = 0 := by
    rw [hrad, Real.cos_pi_div_two]
  have habs : |(|Real.cos (Kozai.radians 90)|) - 0.5| = 0.5 := by
    rw [hcos, abs_zero, zero_sub, abs_neg, abs_of_nonneg (by norm_num : (0 : ℝ) ≤ 0.5)]
  have homega : Kozai.classify_omega_circulation sampleObjNegAd = 0.5 := by
    simp only [Kozai.classify_omega_circulation, sampleObjNegAd, habs]
    norm_num [max_def, min_def]
  have hres : Kozai.calculate_resonance_strength sampleObjNegAd = -(33 / 5) := by
    simp only [Kozai.calculate_resonance_strength, sampleObjNegAd, habs]
    norm_num [max_def, min_def]
  refine ⟨by refine ⟨?_, ?_, ?_, ?_⟩ <;> norm_num [sampleObjNegAd], ?_, ?_⟩
  · rw [Kozai.calculate_kozai_parameter,
      if_neg (by norm_num [sampleObjNegAd] : ¬(1 - sampleObjNegAd.e ^ 2 < 0))]
    simp only [sampleObjNegAd]
    rw [hcos, mul_zero, abs_zero]
  · rw [homega, hres, Kozai.calculate_kozai_evidence]
    norm_num

/-- C6 amended: for every record that passes the candidate filter, has
e < 1 and a nonnegative aphelion, the evidence score equals
0.4·kozaiParameter + 0.3·(1 − omegaCirculation) + 0.3·resonanceStrength
and lies in [0,1]. -/
theorem c6_evidence_amended (o : Kozai.Obj) (he : 0.5 < o.e) (_hi : 30 < o.i)
    (_ha : 50 < o.a) (he1 : o.e < 1) (had : 0 ≤ o.ad) :
    ∃ k, Kozai.calculate_kozai_parameter o = some k ∧
      Kozai.calculate_kozai_evidence k (Kozai.classify_omega_circulation o)
          (Kozai.calculate_resonance_strength o) =
        0.4 * k + 0.3 * (1 - Kozai.classify_omega_circulation o) +
          0.3 * Kozai.calculate_resonance_strength o ∧
      0 ≤ Kozai.calculate_kozai_evidence k (Kozai.classify_omega_circulation o)
          (Kozai.calculate_resonance_strength o) ∧
      Kozai.calculate_kozai_evidence k (Kozai.classify_omega_circulation o)
          (Kozai.calculate_resonance_strength o) ≤ 1 := by
  obtain ⟨k, hk, hk0, hk1⟩ := kozai_parameter_range_of_sq o (by nlinarith)
  refine ⟨k, hk, by rw [Kozai.calculate_kozai_evidence]; ring, ?_, ?_⟩
  · have h1 := omega_circulation_le_one o
    have h2 := resonance_nonneg o he had
    rw [Kozai.calculate_kozai_evidence]
    linarith
  · have h1 := omega_circulation_nonneg o
    have h2 := resonance_le_one o
    rw [Kozai.calculate_kozai_evidence]
    linarith

/-- Witness for C6 at the concrete record `sampleObjWitness`
(e = 0.6, i = 90°, a = 100, ad = 160). -/
theorem c6_witness :
    (0.5 < sampleObjWitness.e ∧ 30 < sampleObjWitness.i ∧ 50 < sampleObjWitness.a ∧
      sampleObjWitness.e < 1 ∧ 0 ≤ sampleObjWitness.ad) ∧
    ∃ k, Kozai.calculate_kozai_parameter sampleObjWitness = some k ∧
      Kozai.calculate_kozai_evidence k (Kozai.classify_omega_circulation sampleObjWitness)
          (Kozai.calculate_resonance_strength sampleObjWitness) =
        0.4 * k + 0.3 * (1 - Kozai.classify_omega_circulation sampleObjWitness) +
          0.3 * Kozai.calculate_resonance_strength sampleObjWitness ∧
      0 ≤ Kozai.calculate_kozai_evidence k (Kozai.classify_omega_circulation sampleObjWitness)
          (Kozai.calculate_resonance_strength sampleObjWitness) ∧
      Kozai.calculate_kozai_evidence k (Kozai.classify_omega_circulation sampleObjWitness)
          (Kozai.calculate_resonance_strength sampleObjWitness) ≤ 1 :=
  ⟨by refine ⟨?_, ?_, ?_, ?_, ?_⟩ <;> norm_num [sampleObjWitness],
    c6_evidence_amended sampleObjWitness (by norm_num [sampleObjWitness])
      (by norm_num [sampleObjWitness]) (by norm_num [sampleObjWitness])
      (by norm_num [sampleObjWitness]) (by norm_num [sampleObjWitness])⟩

/-- Helper: one failing record makes the whole per-candidate loop fail,
modelling the uncaught `ValueError` propagating out of `analyze`. -/
lemma compute_all_eq_none (objects : List Kozai.Obj) (o : Kozai.Obj)
    (hmem : o ∈ objects) (hnone : Kozai.compute_candidate o = none) :
    Kozai.compute_all objects = none := by
  induction objects with
  | nil => cases hmem
  | cons head tail ih =>
    simp only [Kozai.compute_all]
    rcases List.mem_cons.mp hmem with h | h
    · rw [← h, hnone]
    · rw [ih h]
      cases Kozai.compute_candidate head <;> rfl

/-- Helper: a record with e > 1 makes the per-record computation raise
(`sqrt` of a negative argument), modelled by `none`. -/
lemma compute_candidate_eq_none_of_one_lt_e (o : Kozai.Obj) (he : 1 < o.e) :
    Kozai.compute_candidate o = none := by
  have h : Kozai.calculate_kozai_parameter o = none := by
    rw [Kozai.calculate_kozai_parameter, if_pos (by nlinarith)]
  simp only [Kozai.compute_candidate, h]

/-- C2 counterexample: the claim says a record with e ≥ 1 among the
candidates is excluded on its own while the batch completes.  In the
code the `ValueError` from `math.sqrt` is uncaught, so the batch
`[sampleObjHyperbolic, sampleObjBound]` (one hyperbolic record e = 1.5
plus one well-formed record, both passing the filter) produces no result
at all; and a record with e = 1 exactly raises nothing (its Kozai
parameter is 0), contradicting the `e ≥ 1` boundary. -/
theorem c2_counterexample :
    Kozai.analyze [sampleObjHyperbolic, sampleObjBound] = none ∧
    Kozai.calculate_kozai_parameter sampleObjParabolic = some 0 := by
  constructor
  · have hmem : sampleObjHyperbolic ∈
        Kozai.filter_candidates [sampleObjHyperbolic, sampleObjBound] := by
      refine List.mem_filter.mpr ⟨List.mem_cons_self _ _, ?_⟩
      simp only [decide_eq_true_eq]
      refine ⟨?_, ?_, ?_⟩ <;> norm_num [sampleObjHyperbolic]
    have h := compute_all_eq_none _ _ hmem
      (compute_candidate_eq_none_of_one_lt_e _ (by norm_num [sampleObjHyperbolic]))
    simp only [Kozai.analyze, h]
  · rw [Kozai.calculate_kozai_parameter,
      if_neg (by norm_num [sampleObjParabolic] : ¬(1 - sampleObjParabolic.e ^ 2 < 0))]
    norm_num [sampleObjParabolic]

/-- C2 amended: a Kozai candidate with e > 1 makes the per-record
computation signal a domain error that propagates: `analyze` aborts for
the whole batch and produces no result (no per-record exclusion, no
exclusion count); e = 1 exactly signals no error. -/
theorem c2_batch_abort_amended (objects : List Kozai.Obj) (o : Kozai.Obj)
    (hmem : o ∈ Kozai.filter_candidates objects) (he : 1 < o.e) :
    Kozai.analyze objects = none := by
  have h := compute_all_eq_none (Kozai.filter_candidates objects) o hmem
    (compute_candidate_eq_none_of_one_lt_e o he)
  simp only [Kozai.analyze, h]

/-- Witness for C2 at the concrete batch `[sampleObjHyperbolic]`. -/
theorem c2_witness :
    (sampleObjHyperbolic ∈ Kozai.filter_candidates [sampleObjHyperbolic] ∧
      1 < sampleObjHyperbolic.e) ∧
    Kozai.analyze [sampleObjHyperbolic] = none :=
  have hmem : sampleObjHyperbolic ∈ Kozai.filter_candidates [sampleObjHyperbolic] := by
    refine List.mem_filter.mpr ⟨List.mem_singleton_self _, ?_⟩
    simp only [decide_eq_true_eq]
    refine ⟨?_, ?_, ?_⟩ <;> norm_num [sampleObjHyperbolic]
  have he : 1 < sampleObjHyperbolic.e := by norm_num [sampleObjHyperbolic]
  ⟨⟨hmem, he⟩, c2_batch_abort_amended [sampleObjHyperbolic] sampleObjHyperbolic hmem he⟩
